import Mathlib

/-!
Shallow embedding of `app.py` of MedicalReportAnalyzer1: a Streamlit script
that uploads medical files, extracts text or images from them, sends the
content to a remote generative model, and runs a sidebar chat grounded in
the accumulated extracted text.

Strings are modelled as `List Char` (`Str`), byte contents as `List Nat`
(`Bytes`).  The external libraries (fitz, PIL + pytesseract, pydicom, the
genai client) are opaque collaborators: they are modelled as an explicit
record of functions (`ExternalLibs`) threaded through the embedding, so the
repository's own logic — dispatch, accumulation, prompt building, error
handling — is embedded exactly while the library behaviour stays a
parameter.  A library call that can raise a Python exception is modelled
with `Except Str` carrying the exception's message.
-/

namespace MedApp

abbrev Str := List Char
abbrev Bytes := List Nat

/-- Python whitespace for `str.strip()`: space, tab, newline, carriage
return, vertical tab, form feed (ASCII fragment of Python's rule). -/
def isPySpace (c : Char) : Bool :=
  c = ' ' || c = '\t' || c = '\n' || c = '\r' || c.toNat = 11 || c.toNat = 12

/-- Python `str.lstrip()`. -/
def pyLStrip (s : Str) : Str := s.dropWhile isPySpace

/-- Python `str.rstrip()`. -/
def pyRStrip (s : Str) : Str := (s.reverse.dropWhile isPySpace).reverse

/-- Python `str.strip()`. -/
def pyStrip (s : Str) : Str := pyRStrip (pyLStrip s)

/-- Python `sep.join(parts)`: parts interleaved with the separator. -/
def joinSep (sep : Str) : List Str → Str
  | [] => []
  | [p] => p
  | p :: ps => p ++ sep ++ joinSep sep ps

/-- Python `str.lower()` (per-character, as for the ASCII questions here). -/
def lowerStr (s : Str) : Str := s.map Char.toLower

/-- Python `sub in s`: contiguous-substring test. -/
def strContains : Str → Str → Bool
  | [], sub => sub.isEmpty
  | c :: rest, sub => sub.isPrefixOf (c :: rest) || strContains rest sub

/-- An uploaded file's underlying byte stream with a read position:
Streamlit's `UploadedFile` is a file-like object whose `read()` consumes it. -/
structure FileStream where
  bytes : Bytes
  pos : Nat
deriving DecidableEq

/-- `f.read()`: return everything from the current position and move the
position to the end. -/
def streamRead (s : FileStream) : Bytes × FileStream :=
  (s.bytes.drop s.pos, ⟨s.bytes, s.bytes.length⟩)

/-- A PIL image value, as far as the script distinguishes them:
`Image.open(file)` over the bytes read, or `Image.fromarray(arr)` over a
DICOM pixel array. -/
inductive PILImage where
  | decoded : Bytes → PILImage
  | fromArray : Bytes → PILImage
deriving DecidableEq

/-- The external libraries the script delegates to, as opaque functions:
`fitzPageTexts b` is the list of `page.get_text("text")` results of
`fitz.open(stream=b)` in document order; `tesseract` is
`pytesseract.image_to_string`; `dcmread` is `pydicom.dcmread(...).pixel_array`
(`Except.error` models the exception a malformed file raises); `genText` /
`genImage` are `model.generate_content` on a text prompt resp. an
(instruction, image) pair, with `Except.error` carrying a raised error's text. -/
structure ExternalLibs where
  fitzPageTexts : Bytes → List Str
  tesseract : PILImage → Str
  dcmread : Bytes → Except Str Bytes
  genText : Str → Except Str Str
  genImage : Str → PILImage → Except Str Str

/-- `"⚠ No readable text found in the PDF."` (line 38). -/
def pdfPlaceholder : Str := ("⚠ No readable text found in the PDF.").data

/-- `"⚠ No readable text found in the image."` (line 44). -/
def imagePlaceholder : Str := ("⚠ No readable text found in the image.").data

/-- `extract_text_from_pdf` (lines 34–38): read the stream, join the pages'
text with a newline, and fall back to the placeholder when the joined text
is empty or whitespace. Returns the result together with the consumed
stream. -/
def extract_text_from_pdf (env : ExternalLibs) (pdf_file : FileStream) :
    Str × FileStream :=
  let r := streamRead pdf_file
  let text := joinSep (("\n").data) (env.fitzPageTexts r.1)
  (if pyStrip text ≠ [] then text else pdfPlaceholder, r.2)

/-- `extract_text_from_image` (lines 40–44): open the stream as an image,
OCR it, return the stripped text or the placeholder when nothing remains
after stripping. Returns the result together with the consumed stream. -/
def extract_text_from_image (env : ExternalLibs) (image_file : FileStream) :
    Str × FileStream :=
  let r := streamRead image_file
  let text := env.tesseract (PILImage.decoded r.1)
  (if pyStrip text ≠ [] then pyStrip text else imagePlaceholder, r.2)

/-- `load_dicom_image` (lines 46–50): `pydicom.dcmread` the stream and wrap
the pixel array with `Image.fromarray`; a malformed stream makes `dcmread`
raise, modelled by `Except.error`. -/
def load_dicom_image (env : ExternalLibs) (dicom_file : FileStream) :
    Except Str (PILImage × FileStream) :=
  let r := streamRead dicom_file
  match env.dcmread r.1 with
  | Except.ok arr => Except.ok (PILImage.fromArray arr, r.2)
  | Except.error e => Except.error e

/-- An uploaded file as the dispatch loop sees it: display name, declared
MIME type, byte stream. -/
structure UploadedFile where
  name : Str
  type : Str
  stream : FileStream
deriving DecidableEq

/-- One Streamlit UI call made by the script, with the exact string it
displays. -/
inductive Event where
  | stSuccess : Str → Event
  | stSubheader : Str → Event
  | stTextArea : Str → Event
  | stImage : PILImage → Str → Event
  | stWrite : Str → Event
  | stError : Str → Event
deriving DecidableEq

/-- One invocation of `model.generate_content`: a pure-text prompt, or an
(instruction, image) pair. -/
inductive RemoteCall where
  | text : Str → RemoteCall
  | withImage : Str → PILImage → RemoteCall
deriving DecidableEq

/-- `f"✅ {name} uploaded successfully!"` (line 54). -/
def successMsg (name : Str) : Str :=
  ("✅ ").data ++ name ++ (" uploaded successfully!").data

/-- `f"📜 Extracted Report Text from {name}:"` (line 60). -/
def extractedHeader (name : Str) : Str :=
  ("📜 Extracted Report Text from ").data ++ name ++ (":").data

/-- `"🧠 AI Analysis & Suggestions:"` (line 64). -/
def analysisHeader : Str := ("🧠 AI Analysis & Suggestions:").data

/-- The report-analysis prompt template (lines 65–73): the f-string around
`report_text`, indentation and blank lines included. -/
def reportPromptPre : Str :=
  ("\n            You are a medical AI expert. Analyze the following medical report and provide:\n            1. Key findings and possible conditions.\n            2. Health and lifestyle suggestions.\n            3. Whether a doctor consultation is required.\n\n            Medical Report:\n            ").data

/-- Trailing part of the report-analysis f-string after `{report_text}`. -/
def reportPromptSuf : Str := ("\n            ").data

/-- `prompt` of the PDF branch (lines 65–73). -/
def reportPrompt (report_text : Str) : Str :=
  reportPromptPre ++ report_text ++ reportPromptSuf

/-- `f"Error in AI Analysis: {e}"` (lines 80 and 103). -/
def aiAnalysisErr (e : Str) : Str := ("Error in AI Analysis: ").data ++ e

/-- `f"🩻 {name} - X-ray / Medical Image Preview:"` (line 84). -/
def xrayHeader (name : Str) : Str :=
  ("🩻 ").data ++ name ++ (" - X-ray / Medical Image Preview:").data

/-- `f"Uploaded {name}"` (line 92). -/
def imageCaption (name : Str) : Str := ("Uploaded ").data ++ name

/-- `"🧠 AI Analysis for X-ray / Medical Image:"` (line 95). -/
def imageAnalysisHeader : Str :=
  ("🧠 AI Analysis for X-ray / Medical Image:").data

/-- `"Analyze this medical image for any abnormalities."` (line 100). -/
def analyzeImageMsg : Str :=
  ("Analyze this medical image for any abnormalities.").data

/-- Prefix of the unsupported-type error (line 106). -/
def unsupportedPre : Str := ("⚠ Unsupported file type: ").data

/-- Suffix of the unsupported-type error (line 106). -/
def unsupportedSuf : Str :=
  (". Please upload a PDF, TXT, PNG, JPG, or DICOM file.").data

/-- `f"⚠ Unsupported file type: {name}. Please upload a PDF, TXT, PNG, JPG, or DICOM file."` (line 106). -/
def unsupportedMsg (name : Str) : Str :=
  unsupportedPre ++ name ++ unsupportedSuf

/-- What a run of the upload-processing loop produced: the UI calls in
order, the remote calls in order, the final `extracted_text`, and
`aborted = some e` when an uncaught exception with message `e` ended the
script run early. -/
structure RunResult where
  events : List Event
  calls : List RemoteCall
  extracted_text : Str
  aborted : Option Str
deriving DecidableEq

/-- The body of the upload loop (lines 53–106) for one file, starting from
the current `extracted_text`. Mirrors the source: success notice, then the
type dispatch; the PDF branch extracts, accumulates, previews and runs the
guarded report analysis; the image/DICOM branch previews the image and runs
the guarded image analysis, with `load_dicom_image` outside any `try`; the
else branch reports the unsupported type. -/
def processFile (env : ExternalLibs) (extracted_text : Str)
    (f : UploadedFile) : RunResult :=
  let successEv := Event.stSuccess (successMsg f.name)
  if f.type = ("application/pdf").data then
    let report_text := (extract_text_from_pdf env f.stream).1
    let acc := extracted_text ++ ("\n\n").data ++ report_text
    let prompt := reportPrompt report_text
    let pre := [successEv, Event.stSubheader (extractedHeader f.name),
                Event.stTextArea report_text, Event.stSubheader analysisHeader]
    match env.genText prompt with
    | Except.ok t =>
        ⟨pre ++ [Event.stWrite t], [RemoteCall.text prompt], acc, none⟩
    | Except.error e =>
        ⟨pre ++ [Event.stError (aiAnalysisErr e)], [RemoteCall.text prompt],
         acc, none⟩
  else if (("image/").data).isPrefixOf f.type ∨ f.type = ("application/dicom").data then
    let hdrEv := Event.stSubheader (xrayHeader f.name)
    let imageLoaded : Except Str PILImage :=
      if f.type = ("application/dicom").data then
        match load_dicom_image env f.stream with
        | Except.ok r => Except.ok r.1
        | Except.error e => Except.error e
      else
        Except.ok (PILImage.decoded (streamRead f.stream).1)
    match imageLoaded with
    | Except.error e => ⟨[successEv, hdrEv], [], extracted_text, some e⟩
    | Except.ok image =>
        let pre := [successEv, hdrEv,
                    Event.stImage image (imageCaption f.name),
                    Event.stSubheader imageAnalysisHeader]
        match env.genImage analyzeImageMsg image with
        | Except.ok t =>
            ⟨pre ++ [Event.stWrite t],
             [RemoteCall.withImage analyzeImageMsg image], extracted_text, none⟩
        | Except.error e =>
            ⟨pre ++ [Event.stError (aiAnalysisErr e)],
             [RemoteCall.withImage analyzeImageMsg image], extracted_text, none⟩
  else
    ⟨[successEv, Event.stError (unsupportedMsg f.name)], [], extracted_text,
     none⟩

/-- The upload loop (lines 52–106) over a batch of files: files are
processed in order; an uncaught exception in one file's body ends the whole
run, keeping the UI calls already made and skipping the remaining files. -/
def processFiles (env : ExternalLibs) (extracted_text : Str) :
    List UploadedFile → RunResult
  | [] => ⟨[], [], extracted_text, none⟩
  | f :: fs =>
    let r := processFile env extracted_text f
    match r.aborted with
    | some e => ⟨r.events, r.calls, r.extracted_text, some e⟩
    | none =>
      let rest := processFiles env r.extracted_text fs
      ⟨r.events ++ rest.events, r.calls ++ rest.calls, rest.extracted_text,
       rest.aborted⟩

/-- `context_text` (line 113). -/
def context_text (extracted_text : Str) : Str :=
  ("Context from uploaded files:\n").data ++ extracted_text ++
    ("\n\nNow, feel free to ask any questions related to the uploaded medical report or images.").data

/-- `full_prompt` (line 120). -/
def full_prompt (extracted_text user_question : Str) : Str :=
  context_text extracted_text ++ ("\nUser Question: ").data ++ user_question ++
    ("\nAnswer the user's question based on the context.").data

/-- `"🧠 AI Response:"` (line 124). -/
def aiResponseHeader : Str := ("🧠 AI Response:").data

/-- The canned hand-upload-request message (line 130). -/
def handCannedMsg : Str :=
  ("⚠ Please upload a relevant medical report or image containing details of the hand you are asking about.").data

/-- `f"Error in AI Response: {e}"` (line 132). -/
def aiResponseErr (e : Str) : Str := ("Error in AI Response: ").data ++ e

/-- `"which hand"` (line 129). -/
def whichHand : Str := ("which hand").data

/-- The sidebar chat handler (lines 117–132): when a question was typed,
build the context-bearing prompt from the accumulated `extracted_text`,
invoke the model, and on failure show the canned hand message when the
lowercased question contains `"which hand"`, the raw error otherwise. -/
def chatHandler (env : ExternalLibs) (extracted_text user_question : Str) :
    List Event :=
  if user_question = [] then []
  else
    match env.genText (full_prompt extracted_text user_question) with
    | Except.ok t => [Event.stSubheader aiResponseHeader, Event.stWrite t]
    | Except.error e =>
        if strContains (lowerStr user_question) whichHand then
          [Event.stWrite handCannedMsg]
        else
          [Event.stError (aiResponseErr e)]

/-- The amount line 59 appends to `extracted_text` for one file: PDFs
contribute `"\n\n"` followed by their report text; every other branch
leaves the accumulator unchanged. -/
def pdfContribution (env : ExternalLibs) (f : UploadedFile) : Str :=
  if f.type = ("application/pdf").data then
    ("\n\n").data ++ (extract_text_from_pdf env f.stream).1
  else []

/-- `env` with the OCR function replaced, all other libraries kept. -/
def withTesseract (env : ExternalLibs) (t : PILImage → Str) : ExternalLibs :=
  ⟨env.fitzPageTexts, t, env.dcmread, env.genText, env.genImage⟩

/-! ### Concrete fixtures used by witnesses and counterexamples -/

/-- Libraries where every PDF has the single page `"A"`, OCR always reads
`"HELLO"`, DICOM decoding succeeds, and the model answers. -/
def env0 : ExternalLibs :=
  ⟨fun _ => [("A").data],
   fun _ => ("HELLO").data,
   fun _ => Except.ok [0],
   fun _ => Except.ok (("model reply").data),
   fun _ _ => Except.ok (("image reply").data)⟩

/-- Libraries where every remote model call raises `"BOOM"`. -/
def envFail : ExternalLibs :=
  ⟨fun _ => [("A").data],
   fun _ => ("HELLO").data,
   fun _ => Except.ok [0],
   fun _ => Except.error (("BOOM").data),
   fun _ _ => Except.error (("BOOM").data)⟩

/-- Libraries where PDF pages and OCR yield only whitespace. -/
def envWS : ExternalLibs :=
  ⟨fun _ => [(" ").data],
   fun _ => (" ").data,
   fun _ => Except.ok [0],
   fun _ => Except.ok (("model reply").data),
   fun _ _ => Except.ok (("image reply").data)⟩

/-- Libraries where `pydicom.dcmread` raises `"InvalidDicomError"`. -/
def envBadDcm : ExternalLibs :=
  ⟨fun _ => [("A").data],
   fun _ => ("HELLO").data,
   fun _ => Except.error (("InvalidDicomError").data),
   fun _ => Except.ok (("model reply").data),
   fun _ _ => Except.ok (("image reply").data)⟩

/-- A PDF upload. -/
def pdfFileA : UploadedFile :=
  ⟨("report.pdf").data, ("application/pdf").data, ⟨[1], 0⟩⟩

/-- A PNG upload. -/
def pngFile : UploadedFile :=
  ⟨("scan.png").data, ("image/png").data, ⟨[2, 3], 0⟩⟩

/-- A DICOM upload. -/
def dcmFile : UploadedFile :=
  ⟨("xray.dcm").data, ("application/dicom").data, ⟨[4], 0⟩⟩

/-- A plain-text upload: admitted by the extension filter, but its declared
type matches no dispatch branch. -/
def txtFile : UploadedFile :=
  ⟨("notes.txt").data, ("text/plain").data, ⟨[5], 0⟩⟩

/-- A ZIP upload (end-to-end scenario C). -/
def zipFile : UploadedFile :=
  ⟨("archive.zip").data, ("application/zip").data, ⟨[6], 0⟩⟩

/-! ### Helper lemmas -/

/-- Dropping a prefix by a predicate keeps every element the predicate
rejects. -/
theorem mem_dropWhile_of_mem {p : Char → Bool} {l : Str} {c : Char}
    (hc : c ∈ l) (hp : p c = false) : c ∈ l.dropWhile p := by
  induction l with
  | nil => cases hc
  | cons x xs ih =>
    by_cases hx : p x = true
    · rw [List.dropWhile_cons_of_pos hx]
      rcases List.mem_cons.mp hc with rfl | hmem
      · rw [hx] at hp; cases hp
      · exact ih hmem
    · rw [List.dropWhile_cons_of_neg hx]
      exact hc

/-- A string holding a non-whitespace character does not strip to empty. -/
theorem pyStrip_ne_nil {s : Str} {c : Char} (hc : c ∈ s)
    (hns : isPySpace c = false) : pyStrip s ≠ [] := by
  have h1 : c ∈ pyLStrip s := mem_dropWhile_of_mem hc hns
  have h2 : c ∈ pyRStrip (pyLStrip s) := by
    unfold pyRStrip
    rw [List.mem_reverse]
    exact mem_dropWhile_of_mem (List.mem_reverse.mpr h1) hns
  exact List.ne_nil_of_mem h2

/-- Every character of a part occurs in the joined string. -/
theorem mem_joinSep {sep : Str} {ps : List Str} {p : Str} {c : Char}
    (hp : p ∈ ps) (hc : c ∈ p) : c ∈ joinSep sep ps := by
  induction ps with
  | nil => cases hp
  | cons q qs ih =>
    cases qs with
    | nil =>
      rcases List.mem_cons.mp hp with rfl | h
      · exact hc
      · cases h
    | cons q2 qs2 =>
      show c ∈ q ++ sep ++ joinSep sep (q2 :: qs2)
      rcases List.mem_cons.mp hp with rfl | h
      · exact List.mem_append_left _ (List.mem_append_left _ hc)
      · exact List.mem_append_right _ (ih h)

/-- Line 59 in each dispatch branch: one file extends `extracted_text` by
exactly its `pdfContribution`. -/
theorem processFile_extracted (env : ExternalLibs) (acc : Str)
    (f : UploadedFile) :
    (processFile env acc f).extracted_text = acc ++ pdfContribution env f := by
  unfold processFile pdfContribution
  by_cases hpdf : f.type = ("application/pdf").data
  · rw [if_pos hpdf, if_pos hpdf]
    dsimp only
    split <;> simp
  · rw [if_neg hpdf, if_neg hpdf]
    by_cases himg :
        (("image/").data).isPrefixOf f.type = true ∨
          f.type = ("application/dicom").data
    · rw [if_pos himg]
      by_cases hd : f.type = ("application/dicom").data
      · rw [if_pos hd]
        cases hld : load_dicom_image env f.stream with
        | error e => simp [hld]
        | ok r =>
          simp only [hld]
          split <;> simp
      · rw [if_neg hd]
        dsimp only
        split <;> simp
    · rw [if_neg himg]
      simp

/-- A run that was not aborted grows `extracted_text` by exactly the
concatenated `pdfContribution` of its files, in upload order. -/
theorem processFiles_extracted (env : ExternalLibs)
    (files : List UploadedFile) : ∀ acc : Str,
    (processFiles env acc files).aborted = none →
    (processFiles env acc files).extracted_text =
      acc ++ (files.map (pdfContribution env)).flatten := by
  induction files with
  | nil => intro acc _; simp [processFiles]
  | cons f fs ih =>
    intro acc h
    unfold processFiles at h ⊢
    dsimp only at h ⊢
    cases hr : (processFile env acc f).aborted with
    | some e => rw [hr] at h; simp at h
    | none =>
      rw [hr] at h
      dsimp only at h ⊢
      rw [ih _ h, processFile_extracted]
      simp [List.append_assoc]

/-- `extracted_text` is append-only: whatever the batch does, the starting
accumulator stays a prefix of the final one. -/
theorem processFiles_append_only (env : ExternalLibs)
    (files : List UploadedFile) : ∀ acc : Str, ∃ s : Str,
    (processFiles env acc files).extracted_text = acc ++ s := by
  induction files with
  | nil => intro acc; exact ⟨[], by simp [processFiles]⟩
  | cons f fs ih =>
    intro acc
    unfold processFiles
    dsimp only
    cases hr : (processFile env acc f).aborted with
    | some e =>
      refine ⟨pdfContribution env f, ?_⟩
      dsimp only
      exact processFile_extracted env acc f
    | none =>
      obtain ⟨s, hs⟩ := ih (processFile env acc f).extracted_text
      refine ⟨pdfContribution env f ++ s, ?_⟩
      dsimp only
      rw [hs, processFile_extracted]
      simp [List.append_assoc]

/-! ### Claims -/

/-- C1 (counterexample): a PNG with OCR-readable text `"HELLO"` is routed
to the image-analysis branch: the only remote call sends the decoded image
with the fixed instruction, the OCR output `"HELLO"` is not sent as report
content (the instruction does not contain it, no text prompt is issued),
and no extracted-text preview is shown. -/
theorem C1_counterexample :
    (processFile env0 [] pngFile).calls =
      [RemoteCall.withImage analyzeImageMsg (PILImage.decoded [2, 3])] ∧
    (extract_text_from_image env0 pngFile.stream).1 = ("HELLO").data ∧
    RemoteCall.withImage analyzeImageMsg (PILImage.decoded [2, 3]) ≠
      RemoteCall.text (reportPrompt (("HELLO").data)) ∧
    strContains analyzeImageMsg (("HELLO").data) = false ∧
    ((processFile env0 [] pngFile).events.all
      (fun ev => ev != Event.stTextArea (("HELLO").data))) = true := by
  decide

/-- C1 (amended): every file declared `image/*` is routed to the
image-analysis branch, which sends the decoded image itself (with the fixed
instruction) to the remote model; the OCR extractor is never invoked — the
branch's outcome is independent of the OCR library — and the file
contributes nothing to `extracted_text`. -/
theorem C1_image_branch_sends_image (env : ExternalLibs) (acc : Str)
    (f : UploadedFile)
    (himg : (("image/").data).isPrefixOf f.type = true)
    (hnd : f.type ≠ ("application/dicom").data) :
    (processFile env acc f).calls =
      [RemoteCall.withImage analyzeImageMsg
        (PILImage.decoded (streamRead f.stream).1)] ∧
    (processFile env acc f).extracted_text = acc ∧
    (processFile env acc f).aborted = none ∧
    ∀ t : PILImage → Str,
      processFile (withTesseract env t) acc f = processFile env acc f := by
  have hpdf : f.type ≠ ("application/pdf").data := by
    intro hh
    rw [hh] at himg
    exact absurd himg (by decide)
  refine ⟨?_, ?_, ?_, fun t => rfl⟩ <;>
  · unfold processFile
    rw [if_neg hpdf, if_pos (Or.inl himg)]
    dsimp only
    rw [if_neg hnd]
    dsimp only
    split <;> rfl

/-- C1 (witness): the amended theorem applied to the concrete PNG upload. -/
theorem C1_image_branch_sends_image_witness :
    (processFile env0 [] pngFile).calls =
      [RemoteCall.withImage analyzeImageMsg
        (PILImage.decoded (streamRead pngFile.stream).1)] :=
  (C1_image_branch_sends_image env0 [] pngFile (by decide) (by decide)).1

/-- C2 (counterexample): with one uploaded PDF whose extracted text is
`"A"`, the accumulated context is `"\n\nA"`, not the separator-joined
concatenation of the extracted texts (which would be `"A"`): the code
prefixes `"\n\n"` before every text, including the first. And the context
is not type-agnostic: a PNG whose OCR extraction would yield `"HELLO"`
contributes nothing to it. -/
theorem C2_counterexample :
    (extract_text_from_pdf env0 pdfFileA.stream).1 = ("A").data ∧
    (processFiles env0 [] [pdfFileA]).extracted_text =
      ('\n' :: '\n' :: ("A").data) ∧
    (processFiles env0 [] [pdfFileA]).extracted_text ≠
      joinSep (("\n\n").data)
        [(extract_text_from_pdf env0 pdfFileA.stream).1] ∧
    (extract_text_from_image env0 pngFile.stream).1 = ("HELLO").data ∧
    (processFiles env0 [] [pngFile]).extracted_text = [] := by
  decide

/-- C2 (amended): after a non-aborted batch, the accumulated context equals
the initial accumulator followed, for exactly the `application/pdf` files
in upload order, by `"\n\n"` and that file's report text (non-PDF files,
images included, contribute nothing); and the accumulator is append-only:
the starting value stays a prefix. -/
theorem C2_accumulation (env : ExternalLibs) (acc : Str)
    (files : List UploadedFile)
    (h : (processFiles env acc files).aborted = none) :
    (processFiles env acc files).extracted_text =
      acc ++ (files.map (pdfContribution env)).flatten ∧
    ∃ s : Str, (processFiles env acc files).extracted_text = acc ++ s :=
  ⟨processFiles_extracted env files acc h,
   processFiles_append_only env files acc⟩

/-- C2 (witness): the amended theorem applied to a concrete PDF + PNG
batch. -/
theorem C2_accumulation_witness :
    (processFiles env0 [] [pdfFileA, pngFile]).extracted_text =
      [] ++ (([pdfFileA, pngFile]).map (pdfContribution env0)).flatten :=
  (C2_accumulation env0 [] [pdfFileA, pngFile] (by decide)).1

/-- C3: when some page of the PDF holds a non-whitespace character, the
extractor returns exactly the pages' text joined with a newline, in
document order. -/
theorem C3_pdf_join_pages (env : ExternalLibs) (f : FileStream)
    (h : ∃ p ∈ env.fitzPageTexts (streamRead f).1,
           ∃ c ∈ p, isPySpace c = false) :
    (extract_text_from_pdf env f).1 =
      joinSep (("\n").data) (env.fitzPageTexts (streamRead f).1) := by
  obtain ⟨p, hp, c, hc, hns⟩ := h
  unfold extract_text_from_pdf
  dsimp only
  rw [if_pos (pyStrip_ne_nil (mem_joinSep hp hc) hns)]

/-- C3 (witness): the theorem applied to a concrete single-page PDF. -/
theorem C3_pdf_join_pages_witness :
    (extract_text_from_pdf env0 (⟨[1], 0⟩ : FileStream)).1 =
      joinSep (("\n").data)
        (env0.fitzPageTexts (streamRead (⟨[1], 0⟩ : FileStream)).1) :=
  C3_pdf_join_pages env0 ⟨[1], 0⟩ (by decide)

/-- C4 (counterexample): on whitespace-only extractions the PDF extractor
and the image extractor both return a fixed placeholder, but not the same
one: the PDF placeholder ends in `"in the PDF."`, the image placeholder in
`"in the image."`. -/
theorem C4_counterexample :
    (extract_text_from_pdf envWS (⟨[9], 0⟩ : FileStream)).1 =
      pdfPlaceholder ∧
    (extract_text_from_image envWS (⟨[9], 0⟩ : FileStream)).1 =
      imagePlaceholder ∧
    pdfPlaceholder ≠ imagePlaceholder := by
  decide

/-- C4 (amended): when the joined PDF text is whitespace-only the PDF
extractor returns its fixed non-empty placeholder, and when the OCR text is
whitespace-only the image extractor returns its fixed non-empty
placeholder; both placeholders contain "No readable text found", but the
two strings differ in their trailing words. -/
theorem C4_placeholders (env : ExternalLibs) (f g : FileStream)
    (hpdf : pyStrip (joinSep (("\n").data)
              (env.fitzPageTexts (streamRead f).1)) = [])
    (himg : pyStrip (env.tesseract (PILImage.decoded (streamRead g).1)) = []) :
    (extract_text_from_pdf env f).1 = pdfPlaceholder ∧
    (extract_text_from_image env g).1 = imagePlaceholder ∧
    pdfPlaceholder ≠ [] ∧ imagePlaceholder ≠ [] ∧
    strContains pdfPlaceholder (("No readable text found").data) = true ∧
    strContains imagePlaceholder (("No readable text found").data) = true ∧
    pdfPlaceholder ≠ imagePlaceholder := by
  refine ⟨?_, ?_, by decide, by decide, by decide, by decide, by decide⟩
  · unfold extract_text_from_pdf
    dsimp only
    rw [if_neg (not_not.mpr hpdf)]
  · unfold extract_text_from_image
    dsimp only
    rw [if_neg (not_not.mpr himg)]

/-- C4 (witness): the amended theorem applied to concrete whitespace-only
inputs. -/
theorem C4_placeholders_witness :
    (extract_text_from_pdf envWS (⟨[9], 0⟩ : FileStream)).1 =
      pdfPlaceholder :=
  (C4_placeholders envWS ⟨[9], 0⟩ ⟨[9], 0⟩ (by decide) (by decide)).1

/-- C5: a file whose declared type is neither `application/pdf`, nor
`image/*`, nor `application/dicom` — `text/plain` included — produces only
the success notice and the unsupported-type error naming the file, invokes
no extractor and no remote call (the outcome is independent of every
external library), leaves the accumulator unchanged, and the loop continues
with the remaining files exactly as if the file were absent. -/
theorem C5_unsupported_continues (env : ExternalLibs) (acc : Str)
    (f : UploadedFile)
    (h1 : f.type ≠ ("application/pdf").data)
    (h2 : (("image/").data).isPrefixOf f.type = false)
    (h3 : f.type ≠ ("application/dicom").data) :
    processFile env acc f =
      ⟨[Event.stSuccess (successMsg f.name),
        Event.stError (unsupportedMsg f.name)], [], acc, none⟩ ∧
    unsupportedMsg f.name = unsupportedPre ++ f.name ++ unsupportedSuf ∧
    (∀ env2 : ExternalLibs, processFile env2 acc f = processFile env acc f) ∧
    ∀ rest : List UploadedFile,
      processFiles env acc (f :: rest) =
        ⟨[Event.stSuccess (successMsg f.name),
          Event.stError (unsupportedMsg f.name)] ++
            (processFiles env acc rest).events,
         (processFiles env acc rest).calls,
         (processFiles env acc rest).extracted_text,
         (processFiles env acc rest).aborted⟩ := by
  have hOr : ¬((("image/").data).isPrefixOf f.type = true ∨
      f.type = ("application/dicom").data) := by
    rintro (hh | hh)
    · rw [h2] at hh; cases hh
    · exact h3 hh
  have hmain : ∀ env2 : ExternalLibs, processFile env2 acc f =
      ⟨[Event.stSuccess (successMsg f.name),
        Event.stError (unsupportedMsg f.name)], [], acc, none⟩ := by
    intro env2
    unfold processFile
    rw [if_neg h1, if_neg hOr]
  refine ⟨hmain env, rfl, fun env2 => by rw [hmain env, hmain env2], ?_⟩
  intro rest
  simp only [processFiles]
  rw [hmain env]
  dsimp only
  simp

/-- C5 (witness): the theorem applied to the concrete `text/plain` upload,
with a ZIP file processed afterwards. -/
theorem C5_unsupported_continues_witness :
    processFile env0 [] txtFile =
      ⟨[Event.stSuccess (successMsg txtFile.name),
        Event.stError (unsupportedMsg txtFile.name)], [], [], none⟩ :=
  (C5_unsupported_continues env0 [] txtFile (by decide) (by decide)
    (by decide)).1

/-- C6 (counterexample): the chat path does not always surface the raw
error text: with a model that raises `"BOOM"` and the question "Which Hand
should I worry about?", the displayed message is the canned hand message,
which does not contain `"BOOM"`. -/
theorem C6_counterexample :
    chatHandler envFail [] (("Which Hand should I worry about?").data) =
      [Event.stWrite handCannedMsg] ∧
    strContains handCannedMsg (("BOOM").data) = false := by
  decide

/-- C6 (amended): remote-call failures are caught at the call site and are
non-fatal in all three paths; the report-analysis and image-analysis paths
display a message carrying the raw error text, and the chat path does too
unless the question contains "which hand" case-insensitively, in which
case the canned hand message replaces the raw error. -/
theorem C6_failures_caught (env : ExternalLibs) (e : Str)
    (hT : ∀ p, env.genText p = Except.error e)
    (hI : ∀ p i, env.genImage p i = Except.error e) :
    aiAnalysisErr e = ("Error in AI Analysis: ").data ++ e ∧
    aiResponseErr e = ("Error in AI Response: ").data ++ e ∧
    (∀ acc f, f.type = ("application/pdf").data →
      (processFile env acc f).aborted = none ∧
      Event.stError (aiAnalysisErr e) ∈ (processFile env acc f).events) ∧
    (∀ acc f, (("image/").data).isPrefixOf f.type = true →
      f.type ≠ ("application/dicom").data →
      (processFile env acc f).aborted = none ∧
      Event.stError (aiAnalysisErr e) ∈ (processFile env acc f).events) ∧
    (∀ acc q, q ≠ [] → strContains (lowerStr q) whichHand = false →
      chatHandler env acc q = [Event.stError (aiResponseErr e)]) ∧
    (∀ acc q, q ≠ [] → strContains (lowerStr q) whichHand = true →
      chatHandler env acc q = [Event.stWrite handCannedMsg]) := by
  refine ⟨rfl, rfl, ?_, ?_, ?_, ?_⟩
  · intro acc f hf
    unfold processFile
    rw [if_pos hf]
    dsimp only
    rw [hT _]
    dsimp only
    exact ⟨rfl, by simp⟩
  · intro acc f himg hnd
    have hpdf : f.type ≠ ("application/pdf").data := by
      intro hh; rw [hh] at himg; exact absurd himg (by decide)
    unfold processFile
    rw [if_neg hpdf, if_pos (Or.inl himg)]
    dsimp only
    rw [if_neg hnd]
    dsimp only
    rw [hI _ _]
    dsimp only
    exact ⟨rfl, by simp⟩
  · intro acc q hq hwh
    unfold chatHandler
    rw [if_neg hq, hT _]
    simp [hwh]
  · intro acc q hq hwh
    unfold chatHandler
    rw [if_neg hq, hT _]
    simp [hwh]

/-- C6 (witness): the amended theorem applied to the always-failing model
and a concrete PDF upload. -/
theorem C6_failures_caught_witness :
    (processFile envFail [] pdfFileA).aborted = none ∧
    Event.stError (aiAnalysisErr (("BOOM").data)) ∈
      (processFile envFail [] pdfFileA).events :=
  (C6_failures_caught envFail (("BOOM").data) (fun _ => rfl)
    (fun _ _ => rfl)).2.2.1 [] pdfFileA (by decide)

/-- C7: when the chat-path remote call fails, the handler shows the canned
hand message exactly when the lowercased question contains "which hand",
and the raw error message (prefixed "Error in AI Response: ") otherwise. -/
theorem C7_which_hand_fallback (env : ExternalLibs)
    (extracted q e : Str) (hq : q ≠ [])
    (hfail : env.genText (full_prompt extracted q) = Except.error e) :
    chatHandler env extracted q =
      (if strContains (lowerStr q) whichHand then
        [Event.stWrite handCannedMsg]
      else [Event.stError (aiResponseErr e)]) ∧
    aiResponseErr e = ("Error in AI Response: ").data ++ e := by
  refine ⟨?_, rfl⟩
  unfold chatHandler
  rw [if_neg hq, hfail]

/-- C7 (witness): the theorem applied to the failing model and the
question of end-to-end scenario D. -/
theorem C7_which_hand_fallback_witness :
    chatHandler envFail [] (("Which Hand should I worry about?").data) =
      (if strContains
          (lowerStr (("Which Hand should I worry about?").data)) whichHand
        then [Event.stWrite handCannedMsg]
      else [Event.stError (aiResponseErr (("BOOM").data))]) :=
  (C7_which_hand_fallback envFail [] (("Which Hand should I worry about?").data)
    (("BOOM").data) (by decide) rfl).1

/-- A DICOM file whose bytes make `pydicom.dcmread` raise produces the
success notice and the preview header, then the uncaught exception ends
the file's processing with nothing else emitted. -/
theorem processFile_dicom_error (env : ExternalLibs) (acc : Str)
    (f : UploadedFile) (e : Str)
    (hd : f.type = ("application/dicom").data)
    (he : env.dcmread (streamRead f.stream).1 = Except.error e) :
    processFile env acc f =
      ⟨[Event.stSuccess (successMsg f.name),
        Event.stSubheader (xrayHeader f.name)], [], acc, some e⟩ := by
  have hpdf : f.type ≠ ("application/pdf").data := by
    rw [hd]; decide
  unfold processFile
  rw [if_neg hpdf, if_pos (Or.inr hd)]
  dsimp only
  rw [if_pos hd]
  unfold load_dicom_image
  dsimp only
  rw [he]

/-- C8 (counterexample): a malformed DICOM file followed by a healthy PDF:
the run aborts at the DICOM file and the PDF is never processed — not even
its upload-success notice appears. -/
theorem C8_counterexample :
    processFiles envBadDcm [] [dcmFile, pdfFileA] =
      ⟨[Event.stSuccess (successMsg (("xray.dcm").data)),
        Event.stSubheader (xrayHeader (("xray.dcm").data))], [], [],
       some (("InvalidDicomError").data)⟩ ∧
    Event.stSuccess (successMsg (("report.pdf").data)) ∉
      (processFiles envBadDcm [] [dcmFile, pdfFileA]).events := by
  decide

/-- C8 (amended): a malformed DICOM file raises an uncaught error, and the
unhandled failure ends the whole batch: the run keeps exactly the output of
the files before it (plus the DICOM file's notice and header) and the files
after it are not processed at all. -/
theorem C8_dicom_aborts_batch (env : ExternalLibs) (f : UploadedFile)
    (e : Str) (hd : f.type = ("application/dicom").data)
    (he : env.dcmread (streamRead f.stream).1 = Except.error e) :
    ∀ (pre : List UploadedFile) (post : List UploadedFile) (acc : Str),
    (processFiles env acc pre).aborted = none →
    processFiles env acc (pre ++ f :: post) =
      ⟨(processFiles env acc pre).events ++
        [Event.stSuccess (successMsg f.name),
         Event.stSubheader (xrayHeader f.name)],
       (processFiles env acc pre).calls,
       (processFiles env acc pre).extracted_text, some e⟩ := by
  intro pre
  induction pre with
  | nil =>
    intro post acc _
    simp only [List.nil_append]
    unfold processFiles
    dsimp only
    rw [processFile_dicom_error env acc f e hd he]
    dsimp only
    simp
  | cons g gs ih =>
    intro post acc hok
    rw [List.cons_append]
    unfold processFiles at hok ⊢
    dsimp only at hok ⊢
    cases hr : (processFile env acc g).aborted with
    | some e2 => rw [hr] at hok; simp at hok
    | none =>
      rw [hr] at hok
      dsimp only at hok ⊢
      rw [ih post _ hok]
      simp [List.append_assoc]

/-- C8 (witness): the amended theorem applied to a healthy PDF followed by
the malformed DICOM file. -/
theorem C8_dicom_aborts_batch_witness :
    processFiles envBadDcm [] ([pdfFileA] ++ dcmFile :: []) =
      ⟨(processFiles envBadDcm [] [pdfFileA]).events ++
        [Event.stSuccess (successMsg dcmFile.name),
         Event.stSubheader (xrayHeader dcmFile.name)],
       (processFiles envBadDcm [] [pdfFileA]).calls,
       (processFiles envBadDcm [] [pdfFileA]).extracted_text,
       some (("InvalidDicomError").data)⟩ :=
  C8_dicom_aborts_batch envBadDcm dcmFile (("InvalidDicomError").data)
    (by decide) rfl [pdfFileA] [] [] (by decide)

/-- C9: every extractor is a pure function of its input byte stream: two
streams whose `read()` yields the same bytes produce identical extraction
output — for the PDF extractor, the OCR extractor and the DICOM converter
alike. -/
theorem C9_extractors_pure (env : ExternalLibs) (s1 s2 : FileStream)
    (h : s1.bytes.drop s1.pos = s2.bytes.drop s2.pos) :
    (extract_text_from_pdf env s1).1 = (extract_text_from_pdf env s2).1 ∧
    (extract_text_from_image env s1).1 =
      (extract_text_from_image env s2).1 ∧
    (load_dicom_image env s1).map Prod.fst =
      (load_dicom_image env s2).map Prod.fst := by
  have hr : (streamRead s1).1 = (streamRead s2).1 := h
  refine ⟨?_, ?_, ?_⟩
  · unfold extract_text_from_pdf
    dsimp only
    rw [hr]
  · unfold extract_text_from_image
    dsimp only
    rw [hr]
  · unfold load_dicom_image
    dsimp only
    rw [hr]
    cases envr : env.dcmread (streamRead s2).1 <;> rfl

/-- C9 (witness): the theorem applied to two distinct streams carrying the
same remaining bytes (one partly consumed). -/
theorem C9_extractors_pure_witness :
    (extract_text_from_pdf env0 (⟨[7, 8], 0⟩ : FileStream)).1 =
      (extract_text_from_pdf env0 (⟨[9, 7, 8], 1⟩ : FileStream)).1 :=
  (C9_extractors_pure env0 ⟨[7, 8], 0⟩ ⟨[9, 7, 8], 1⟩ (by decide)).1

/-- C10: after a non-aborted batch starting from the empty accumulator,
the accumulated context equals, for exactly the `application/pdf` files in
upload order, the concatenation of `"\n\n"` followed by each file's report
text (so it is empty when no PDF was uploaded), and the chat prompt embeds
that string between the fixed header and the trailing instructions even
when it is empty. -/
theorem C10_context_prompt (env : ExternalLibs) (files : List UploadedFile)
    (h : (processFiles env [] files).aborted = none) :
    (processFiles env [] files).extracted_text =
      (files.map (pdfContribution env)).flatten ∧
    ((∀ g ∈ files, g.type ≠ ("application/pdf").data) →
      (processFiles env [] files).extracted_text = []) ∧
    ∀ q : Str, full_prompt (processFiles env [] files).extracted_text q =
      ("Context from uploaded files:\n").data ++
        (processFiles env [] files).extracted_text ++
        ("\n\nNow, feel free to ask any questions related to the uploaded medical report or images.").data ++
        ("\nUser Question: ").data ++ q ++
        ("\nAnswer the user's question based on the context.").data := by
  have h1 : (processFiles env [] files).extracted_text =
      (files.map (pdfContribution env)).flatten := by
    simpa using processFiles_extracted env files [] h
  refine ⟨h1, ?_, ?_⟩
  · intro hno
    rw [h1, List.flatten_eq_nil_iff]
    intro x hx
    rw [List.mem_map] at hx
    obtain ⟨g, hg, rfl⟩ := hx
    unfold pdfContribution
    rw [if_neg (hno g hg)]
  · intro q
    simp [full_prompt, context_text, List.append_assoc]

/-- C10 (witness): the theorem applied to a concrete PDF + PNG batch. -/
theorem C10_context_prompt_witness :
    (processFiles env0 [] [pdfFileA, pngFile]).extracted_text =
      (([pdfFileA, pngFile]).map (pdfContribution env0)).flatten :=
  (C10_context_prompt env0 [pdfFileA, pngFile] (by decide)).1

end MedApp
